import Mathlib

/-!
Shallow embedding of the NewsHub content-management code: the admin module
(`GitHubAPI`, `AdminUI`, `PostManager`, `CategoryManager` in `admin/admin.js`)
and the automation module (`GitHubAutomation`, `BatchOperations`).

Modelling conventions:
* JSON values are `Value`; a JavaScript object is an association list (`Obj`)
  in which a later binding shadows an earlier one, exactly the behaviour of
  object literals and of spread (`{...a, ...b}`); field lookup (`objGet`)
  returns the last binding, `none` standing for JavaScript `undefined`.
* Clock reads (`Date.now()`, `new Date().toISOString()`,
  `toISOString().split('T')[0]`) are passed in as parameters
  (`now`, `nowIso`, `today`).
* Thrown `Error` objects are modelled by the kind of the throw site only
  (`Err`); the attached message strings are elided.
* Base64 transport encoding and JSON (de)serialisation are elided: the store
  holds parsed `Value`s.  Records stored in the documents written by this
  code are always objects; spreading or reading properties of non-object
  record values (which this code never writes) is modelled by `asObj`/`vGet`
  returning the empty object / `undefined`.
-/

/-- A JSON value, as produced by `JSON.parse`. -/
inductive Value where
  | vnull
  | vbool (b : Bool)
  | vnum (n : Int)
  | vstr (s : String)
  | varr (elems : List Value)
  | vobj (fields : List (String × Value))
deriving Repr

/-- A JavaScript object: field bindings in insertion order, later wins. -/
abbrev Obj := List (String × Value)

/-- Property read `o[k]`: the last binding of `k`, `none` = `undefined`. -/
def objGet (o : Obj) (k : String) : Option Value :=
  o.foldl (fun acc p => if p.1 == k then some p.2 else acc) none

/-- Property read on an arbitrary value (`v.k`); on non-objects the
properties this code reads are absent (`undefined`). -/
def vGet (v : Value) (k : String) : Option Value :=
  match v with
  | .vobj o => objGet o k
  | _ => none

/-- JavaScript truthiness of a value. -/
def truthy : Value → Bool
  | .vnull => false
  | .vbool b => b
  | .vnum n => n != 0
  | .vstr s => s != ""
  | .varr _ => true
  | .vobj _ => true

/-- Truthiness of a possibly-absent value (`undefined` is falsy). -/
def truthyOpt : Option Value → Bool
  | none => false
  | some v => truthy v

/-- JavaScript `a || b`: `a` when truthy, otherwise `b`. -/
def jsOr (a : Option Value) (b : Value) : Value :=
  match a with
  | some v => if truthy v then v else b
  | none => b

/-- Strict equality `===` on primitive values; two distinct arrays or
objects compare by reference in JavaScript, modelled as `false` here (the
code only ever compares slugs, which are strings, or `undefined`). -/
def primEq : Value → Value → Bool
  | .vnull, .vnull => true
  | .vbool a, .vbool b => a == b
  | .vnum a, .vnum b => a == b
  | .vstr a, .vstr b => a == b
  | _, _ => false

/-- Strict equality `===` where either side may be `undefined`. -/
def jsEq : Option Value → Option Value → Bool
  | none, none => true
  | some a, some b => primEq a b
  | _, _ => false

/-- The object under a value, for spreading: `{...v}`; spreading `undefined`
or `null` yields no fields, and non-object record values do not occur in the
documents this code writes. -/
def asObj : Value → Obj
  | .vobj o => o
  | _ => []

/-- Spread of a possibly-absent value (`{...u.data}` with `data` absent). -/
def asObjOpt : Option Value → Obj
  | some v => asObj v
  | none => []

section ObjLemmas

/-- Lookup in a concatenation: the right-hand (later) bindings win. -/
theorem objGet_append (a b : Obj) (k : String) :
    objGet (a ++ b) k =
      match objGet b k with
      | some v => some v
      | none => objGet a k := by
  have aux : ∀ (l : Obj) (init : Option Value),
      l.foldl (fun acc p => if p.1 == k then some p.2 else acc) init =
        match l.foldl (fun acc p => if p.1 == k then some p.2 else acc) none with
        | some v => some v
        | none => init := by
    intro l
    induction l with
    | nil => intro init; rfl
    | cons hd tl ih =>
      intro init
      simp only [List.foldl_cons]
      rw [ih (if hd.1 == k then some hd.2 else init),
        ih (if hd.1 == k then some hd.2 else none)]
      cases h : tl.foldl (fun acc p => if p.1 == k then some p.2 else acc) none with
      | some v => rfl
      | none => by_cases hk : hd.1 == k <;> simp [hk]
  unfold objGet
  rw [List.foldl_append, aux b (List.foldl _ none a)]

end ObjLemmas

/-!
Slug derivation (`AdminUI.generateSlug` in `admin/admin.js` lines 310-317 and
`GitHubAutomation.generateSlug` in the automation module lines 383-390; the
two bodies are textually identical):

    title.toLowerCase()
      then globally replace the class complement of [a-z0-9\s-] by ''
      then globally replace each run matching \s+ by '-'
      then globally replace each run of hyphens by '-'
      then .substring(0, 100)

`Char.toLower` models `toLowerCase` (ASCII case mapping; every character on
which the two mappings could differ is outside `[a-z0-9\s-]` and is stripped
by the following replace).  `substring(0, 100)` is modelled as taking the
first 100 characters.
-/

/-- The character class `\s` of JavaScript regular expressions. -/
def isJsSpace (c : Char) : Bool :=
  c == ' ' || c == '\t' || c == '\n' || c == '\r' || c == '\x0b' || c == '\x0c' ||
  c == ' ' || c == ' ' || (' ' ≤ c && c ≤ ' ') ||
  c == ' ' || c == ' ' || c == ' ' || c == ' ' ||
  c == '　' || c == '﻿'

/-- The character class `[a-z0-9\s-]`: characters kept by the first replace. -/
def keepChar (c : Char) : Bool :=
  ('a' ≤ c && c ≤ 'z') || ('0' ≤ c && c ≤ '9') || isJsSpace c || c == '-'

/-- Global regex replace of each maximal run of `p`-characters by the single
character `r`, as a left-to-right scan (`inRun` records whether the previous
character belonged to a run). -/
def squashRuns (p : Char → Bool) (r : Char) : List Char → Bool → List Char
  | [], _ => []
  | c :: cs, inRun =>
    if p c then
      if inRun then squashRuns p r cs true else r :: squashRuns p r cs true
    else c :: squashRuns p r cs false

/-- `GitHubAutomation.generateSlug` (automation module lines 383-390). -/
def GitHubAutomation.generateSlug (text : String) : String :=
  let cs := text.data.map Char.toLower
  let cs := cs.filter keepChar
  let cs := squashRuns isJsSpace '-' cs false
  let cs := squashRuns (fun c => c == '-') '-' cs false
  String.mk (cs.take 100)

/-- `AdminUI.generateSlug` (`admin/admin.js` lines 310-317); the body is
textually identical to the automation module's copy. -/
def AdminUI.generateSlug (title : String) : String :=
  let cs := title.data.map Char.toLower
  let cs := cs.filter keepChar
  let cs := squashRuns isJsSpace '-' cs false
  let cs := squashRuns (fun c => c == '-') '-' cs false
  String.mk (cs.take 100)

/-!
The specification's wording of the same algorithm ("replace each run of
whitespace with a single hyphen; collapse runs of hyphens to one") is stated
independently below, by explicit recursion on runs, and proved equal to the
scan used in the embedding of the source.
-/

theorem dropWhile_length_le (p : Char → Bool) (l : List Char) :
    (l.dropWhile p).length ≤ l.length := by
  induction l with
  | nil => exact Nat.le_refl 0
  | cons c cs ih =>
    cases hc : p c with
    | true =>
      simp only [List.dropWhile_cons, hc, if_true, List.length_cons]
      exact Nat.le_trans ih (Nat.le_succ _)
    | false =>
      simp [List.dropWhile_cons, hc]

/-- Replace each maximal run of `p`-characters by the single character `r`,
stated run-by-run: a run is consumed with `dropWhile` in one step. -/
def squashSpec (p : Char → Bool) (r : Char) : List Char → List Char
  | [] => []
  | c :: cs =>
    if p c then r :: squashSpec p r (cs.dropWhile p)
    else c :: squashSpec p r cs
termination_by l => l.length
decreasing_by
  · simp only [List.length_cons]
    exact Nat.lt_succ_of_le (dropWhile_length_le p cs)
  · simp

/-- The spec's slug pipeline: lowercase; remove every character outside
`[a-z0-9\s-]`; replace each whitespace run by one hyphen; collapse hyphen
runs; truncate to 100 characters. -/
def slugSpec (title : String) : String :=
  String.mk
    ((squashSpec (fun c => c == '-') '-'
        (squashSpec isJsSpace '-'
          ((title.data.map Char.toLower).filter keepChar))).take 100)

theorem squashRuns_true (p : Char → Bool) (r : Char) (l : List Char) :
    squashRuns p r l true = squashRuns p r (l.dropWhile p) false := by
  induction l with
  | nil => rfl
  | cons c cs ih =>
    by_cases hc : p c
    · simp [squashRuns, hc, List.dropWhile_cons, ih]
    · simp [squashRuns, hc, List.dropWhile_cons]

theorem squashRuns_eq_squashSpec (p : Char → Bool) (r : Char) (l : List Char) :
    squashRuns p r l false = squashSpec p r l := by
  have aux : ∀ (n : Nat) (l : List Char), l.length ≤ n →
      squashRuns p r l false = squashSpec p r l := by
    intro n
    induction n with
    | zero =>
      intro l hl
      have : l = [] := List.eq_nil_of_length_eq_zero (Nat.le_zero.mp hl)
      subst this
      simp [squashRuns, squashSpec]
    | succ n ih =>
      intro l hl
      match l with
      | [] => simp [squashRuns, squashSpec]
      | c :: cs =>
        simp only [List.length_cons, Nat.succ_le_succ_iff] at hl
        by_cases hc : p c
        · rw [show squashRuns p r (c :: cs) false = r :: squashRuns p r cs true by
            simp [squashRuns, hc]]
          rw [show squashSpec p r (c :: cs) = r :: squashSpec p r (cs.dropWhile p) by
            simp [squashSpec, hc]]
          rw [squashRuns_true,
            ih (cs.dropWhile p) (le_trans (dropWhile_length_le p cs) hl)]
        · rw [show squashRuns p r (c :: cs) false = c :: squashRuns p r cs false by
            simp [squashRuns, hc]]
          rw [show squashSpec p r (c :: cs) = c :: squashSpec p r cs by
            simp [squashSpec, hc]]
          rw [ih cs hl]
  exact aux l.length l le_rfl


/-!
Error kinds.  The code throws plain `Error` objects; each constructor below
stands for a class of throw sites: `notFound` for the "not found" throws of
the record mutators, `typeError` for the implicit TypeError raised when
`generateSlug` is applied to `undefined` or another non-string, `conflict`
for the store's stale-version rejection of a write, and `repoError` for any
other non-success response surfaced by the client.
-/

inductive Err where
  | notFound
  | typeError
  | conflict
  | repoError
deriving Repr, DecidableEq

/-- `this.generateSlug(x)` where `x` is an arbitrary (possibly absent)
value: `undefined.toLowerCase()` and its kin throw a TypeError. -/
def GitHubAutomation.generateSlugJS (v : Option Value) : Except Err String :=
  match v with
  | some (.vstr s) => .ok (GitHubAutomation.generateSlug s)
  | _ => .error .typeError

/-- `AdminUI.generateSlug(x)` on an arbitrary value, as called by
`PostManager` and `CategoryManager`. -/
def AdminUI.generateSlugJS (v : Option Value) : Except Err String :=
  match v with
  | some (.vstr s) => .ok (AdminUI.generateSlug s)
  | _ => .error .typeError

/-- The predicate `p.slug === slug` used by `findIndex`, `find` and
`filter` in the post mutators. -/
def postMatches (slug : String) (p : Value) : Bool :=
  jsEq (vGet p "slug") (some (.vstr slug))

/-- `Array.prototype.findIndex`: index of the first element satisfying `p`
(`none` standing for `-1`). -/
def findIndex (p : Value → Bool) : List Value → Option Nat
  | [] => none
  | x :: xs => if p x then some 0 else (findIndex p xs).map (fun i => i + 1)

/-- The document written by `updatePosts` (automation lines 67-75) and by
the `PostManager` mutators: `{posts, lastUpdated}`. -/
def postsDocContent (posts : List Value) (nowIso : String) : Value :=
  .vobj [("posts", .varr posts), ("lastUpdated", .vstr nowIso)]

/-- The document written by `updateCategories` (automation lines 159-167)
and `CategoryManager.create`: `{categories, lastUpdated}`. -/
def categoriesDocContent (cats : List Value) (nowIso : String) : Value :=
  .vobj [("categories", .varr cats), ("lastUpdated", .vstr nowIso)]

/-- The document written by `updateSiteSettings` (automation lines 172-180):
`{...settings, lastUpdated}`. -/
def siteDocContent (settings : Obj) (nowIso : String) : Value :=
  .vobj (settings ++ [("lastUpdated", .vstr nowIso)])

/-- `currentData.posts || []` (an array, even empty, is truthy; an absent
field is falsy; a truthy non-array `posts` value never occurs in documents
this code writes and is modelled as the empty list). -/
def postsOf (v : Value) : List Value :=
  match vGet v "posts" with
  | some (.varr l) => l
  | _ => []

/-- `data.categories || []`. -/
def categoriesOf (v : Value) : List Value :=
  match vGet v "categories" with
  | some (.varr l) => l
  | _ => []

/-!
Record-level cores of the mutators: the pure list manipulation each mutator
performs between its read and its write of the document.
-/

/-- Automation lines 85-95: the construction of `newPost` (with
`id`, `slug`, `date`, `views` defaults evaluated before the spread of
`post`, which therefore wins on shared keys) and the `unshift`.  The `slug`
default `post.slug || this.generateSlug(post.title)` short-circuits: the
slug generator, which throws on a non-string title, runs only when
`post.slug` is falsy. -/
def GitHubAutomation.addPostCore (now : Int) (today : String) (post : Obj)
    (posts : List Value) : Except Err (Value × List Value) :=
  match
    ((match objGet post "slug" with
      | some v =>
        if truthy v then .ok v
        else (GitHubAutomation.generateSlugJS (objGet post "title")).map Value.vstr
      | none =>
        (GitHubAutomation.generateSlugJS (objGet post "title")).map Value.vstr) :
      Except Err Value)
  with
  | .error e => .error e
  | .ok slugv =>
    let newPost := Value.vobj
      ([("id", jsOr (objGet post "id") (.vnum now)),
        ("slug", slugv),
        ("date", jsOr (objGet post "date") (.vstr today)),
        ("views", .vnum 0)] ++ post)
    .ok (newPost, newPost :: posts)

/-- Automation lines 112-123: find the post by slug (else throw), then
`posts[index] = {...posts[index], ...updates, slug: updates.title ?
this.generateSlug(updates.title) : posts[index].slug}`.  The record found by
`findIndex` necessarily has a string `slug` equal to the key, so the `getD`
default of the preserved slug is never reached. -/
def GitHubAutomation.updatePostCore (slug : String) (updates : Obj)
    (posts : List Value) : Except Err (Value × List Value) :=
  match findIndex (postMatches slug) posts with
  | none => .error .notFound
  | some i =>
    let old := (posts[i]?).getD .vnull
    match
      (if truthyOpt (objGet updates "title") then
        (GitHubAutomation.generateSlugJS (objGet updates "title")).map Value.vstr
      else .ok ((vGet old "slug").getD .vnull))
    with
    | .error e => .error e
    | .ok slugv =>
      let newRec := Value.vobj (asObj old ++ updates ++ [("slug", slugv)])
      .ok (newRec, posts.set i newRec)

/-- Admin lines 453-464 (`PostManager.update`): the same merge, but the slug
is recomputed as `AdminUI.generateSlug(postData.title)` unconditionally, so
a patch without a string `title` throws a TypeError. -/
def PostManager.updateCore (slug : String) (postData : Obj)
    (posts : List Value) : Except Err (Value × List Value) :=
  match findIndex (postMatches slug) posts with
  | none => .error .notFound
  | some i =>
    let old := (posts[i]?).getD .vnull
    match (AdminUI.generateSlugJS (objGet postData "title")).map Value.vstr with
    | .error e => .error e
    | .ok slugv =>
      let newRec := Value.vobj (asObj old ++ postData ++ [("slug", slugv)])
      .ok (newRec, posts.set i newRec)

/-- Automation lines 140-147: `posts.find` (throw when absent) then
`posts.filter(p => p.slug !== slug)`. -/
def GitHubAutomation.deletePostCore (slug : String) (posts : List Value) :
    Except Err (List Value) :=
  match posts.find? (postMatches slug) with
  | none => .error .notFound
  | some _ => .ok (posts.filter (fun p => !(postMatches slug p)))

/-- Admin lines 487-494 (`PostManager.delete`): identical logic. -/
def PostManager.deleteCore (slug : String) (posts : List Value) :
    Except Err (List Value) :=
  match posts.find? (postMatches slug) with
  | none => .error .notFound
  | some _ => .ok (posts.filter (fun p => !(postMatches slug p)))

/-- Admin lines 416-430 (`PostManager.create`): `id` and `slug` are computed
before the record literal `{id, slug, ...postData, views: 0, date:
postData.date || today}`; the spread can override `id` and `slug`, while
`views: 0` and the `date` default are written after it.  The slug generator
runs unconditionally on `postData.title`. -/
def PostManager.createCore (now : Int) (today : String) (postData : Obj)
    (posts : List Value) : Except Err (Value × List Value) :=
  match AdminUI.generateSlugJS (objGet postData "title") with
  | .error e => .error e
  | .ok s =>
    let newPost := Value.vobj
      ([("id", .vnum now), ("slug", .vstr s)] ++ postData ++
       [("views", .vnum 0), ("date", jsOr (objGet postData "date") (.vstr today))])
    .ok (newPost, newPost :: posts)

/-- Admin lines 546-552 (`CategoryManager.create`): `{id: Date.now(), slug:
AdminUI.generateSlug(categoryData.name), ...categoryData}` pushed to the end
of the list. -/
def CategoryManager.createCore (now : Int) (categoryData : Obj)
    (cats : List Value) : Except Err (Value × List Value) :=
  match AdminUI.generateSlugJS (objGet categoryData "name") with
  | .error e => .error e
  | .ok s =>
    let newCategory := Value.vobj
      ([("id", .vnum now), ("slug", .vstr s)] ++ categoryData)
    .ok (newCategory, cats ++ [newCategory])

/-!
The contents-API client.  A `Response` is an HTTP response after transport
decoding: `ok` mirrors `response.ok`, `status` the HTTP status code, and
`body` the decoded, parsed document (base64 decoding and `JSON.parse`, which
this embedding elides, succeed on every document this code writes).
-/

structure Response where
  ok : Bool
  status : Nat
  body : Value
deriving Repr

/-- `GitHubAPI.getFile` (admin lines 52-82): a 404 on one of the three data
documents yields that path's typed empty default; a 404 on any other path,
and every other non-success status, is thrown. -/
def GitHubAPI.getFile (path : String) (resp : Response) : Except Err Value :=
  if resp.ok then .ok resp.body
  else if resp.status == 404 && path == "data/posts.json" then
    .ok (.vobj [("posts", .varr [])])
  else if resp.status == 404 && path == "data/categories.json" then
    .ok (.vobj [("categories", .varr [])])
  else if resp.status == 404 && path == "data/site.json" then
    .ok (.vobj [])
  else .error .repoError

/-- `GitHubAutomation.getFile` (automation lines 286-315): identical logic
to the admin copy, differing only in the `?ref=branch` query string. -/
def GitHubAutomation.getFile (path : String) (resp : Response) : Except Err Value :=
  if resp.ok then .ok resp.body
  else if resp.status == 404 && path == "data/posts.json" then
    .ok (.vobj [("posts", .varr [])])
  else if resp.status == 404 && path == "data/categories.json" then
    .ok (.vobj [("categories", .varr [])])
  else if resp.status == 404 && path == "data/site.json" then
    .ok (.vobj [])
  else .error .repoError

/-!
The remote store.  A file carries its parsed content and its version
identifier (`sha`), modelled as a counter bumped on every successful write
of the path.
-/

structure FileState where
  content : Value
  sha : Nat
deriving Repr

structure Store where
  files : List (String × FileState)
deriving Repr

/-- Replace the binding of `path`, or append one. -/
def setEntry (path : String) (fs : FileState) :
    List (String × FileState) → List (String × FileState)
  | [] => [(path, fs)]
  | q :: rest => if q.1 == path then (path, fs) :: rest else q :: setEntry path fs rest

def Store.lookup (st : Store) (path : String) : Option FileState :=
  (st.files.find? (fun q => q.1 == path)).map (fun q => q.2)

def Store.setFile (st : Store) (path : String) (fs : FileState) : Store :=
  ⟨setEntry path fs st.files⟩

/-- The response the contents API produces for a `GET` of `path`. -/
def storeResponse (st : Store) (path : String) : Response :=
  match Store.lookup st path with
  | some fs => ⟨true, 200, fs.content⟩
  | none => ⟨false, 404, .vnull⟩

/-- `getFile` as issued against the store. -/
def fetchFile (st : Store) (path : String) : Except Err Value :=
  GitHubAutomation.getFile path (storeResponse st path)

/-- `getFileSHA` (automation lines 320-338, admin lines 87-107): the current
version token of `path`, or `null` when the file does not exist. -/
def getFileSHA (st : Store) (path : String) : Option Nat :=
  (Store.lookup st path).map (fun fs => fs.sha)

/-- Modelled from the spec: the content store's `PUT` contents endpoint
(spec section 6, "External Interfaces"), which is not part of this
repository.  Updating an existing file requires the current version token —
a stale or missing token is rejected — and creating a new file requires
none; a successful write installs the content under a fresh version. -/
def putContents (st : Store) (path : String) (content : Value)
    (sha : Option Nat) : Except Err Store :=
  match Store.lookup st path with
  | some fs =>
    match sha with
    | some s =>
      if s == fs.sha then .ok (Store.setFile st path ⟨content, fs.sha + 1⟩)
      else .error .conflict
    | none => .error .repoError
  | none =>
    match sha with
    | some _ => .error .repoError
    | none => .ok (Store.setFile st path ⟨content, 0⟩)

/-- `createOrUpdateFile` (automation lines 343-371): fetch the sha of `path`
from the store, attach it to the `PUT` body only when non-null, submit.
`GitHubAPI.updateFile` (admin lines 112-144) has the same body modulo the
branch attribute and is embedded by the same function. -/
def GitHubAutomation.createOrUpdateFile (st : Store) (path : String)
    (content : Value) : Except Err Store :=
  putContents st path content (getFileSHA st path)

/-- `updateFile` (automation lines 376-378): alias for `createOrUpdateFile`
with JSON content. -/
def GitHubAutomation.updateFile (st : Store) (path : String) (content : Value) :
    Except Err Store :=
  GitHubAutomation.createOrUpdateFile st path content

/-!
Store-level mutators: read → record-level core → write.
-/

/-- `updatePosts` (automation lines 67-75). -/
def GitHubAutomation.updatePosts (st : Store) (posts : List Value)
    (nowIso : String) : Except Err Store :=
  GitHubAutomation.updateFile st "data/posts.json" (postsDocContent posts nowIso)

/-- `updateCategories` (automation lines 159-167). -/
def GitHubAutomation.updateCategories (st : Store) (cats : List Value)
    (nowIso : String) : Except Err Store :=
  GitHubAutomation.updateFile st "data/categories.json" (categoriesDocContent cats nowIso)

/-- `updateSiteSettings` (automation lines 172-180). -/
def GitHubAutomation.updateSiteSettings (st : Store) (settings : Obj)
    (nowIso : String) : Except Err Store :=
  GitHubAutomation.updateFile st "data/site.json" (siteDocContent settings nowIso)

/-- `addPost` (automation lines 80-102). -/
def GitHubAutomation.addPost (now : Int) (today nowIso : String) (post : Obj)
    (st : Store) : Except Err (Value × Store) :=
  match fetchFile st "data/posts.json" with
  | .error e => .error e
  | .ok currentData =>
    match GitHubAutomation.addPostCore now today post (postsOf currentData) with
    | .error e => .error e
    | .ok (newPost, posts) =>
      match GitHubAutomation.updatePosts st posts nowIso with
      | .error e => .error e
      | .ok st' => .ok (newPost, st')

/-- `updatePost` (automation lines 107-130). -/
def GitHubAutomation.updatePost (slug : String) (updates : Obj)
    (nowIso : String) (st : Store) : Except Err (Value × Store) :=
  match fetchFile st "data/posts.json" with
  | .error e => .error e
  | .ok currentData =>
    match GitHubAutomation.updatePostCore slug updates (postsOf currentData) with
    | .error e => .error e
    | .ok (newRec, posts) =>
      match GitHubAutomation.updatePosts st posts nowIso with
      | .error e => .error e
      | .ok st' => .ok (newRec, st')

/-- `deletePost` (automation lines 135-154). -/
def GitHubAutomation.deletePost (slug : String) (nowIso : String)
    (st : Store) : Except Err Store :=
  match fetchFile st "data/posts.json" with
  | .error e => .error e
  | .ok currentData =>
    match GitHubAutomation.deletePostCore slug (postsOf currentData) with
    | .error e => .error e
    | .ok filteredPosts =>
      GitHubAutomation.updatePosts st filteredPosts nowIso

/-- `PostManager.create` (admin lines 411-443). -/
def PostManager.create (now : Int) (today nowIso : String) (postData : Obj)
    (st : Store) : Except Err (Value × Store) :=
  match fetchFile st "data/posts.json" with
  | .error e => .error e
  | .ok data =>
    match PostManager.createCore now today postData (postsOf data) with
    | .error e => .error e
    | .ok (newPost, posts) =>
      match GitHubAutomation.updateFile st "data/posts.json"
          (postsDocContent posts nowIso) with
      | .error e => .error e
      | .ok st' => .ok (newPost, st')

/-- `PostManager.update` (admin lines 448-477). -/
def PostManager.update (slug : String) (postData : Obj) (nowIso : String)
    (st : Store) : Except Err (Value × Store) :=
  match fetchFile st "data/posts.json" with
  | .error e => .error e
  | .ok data =>
    match PostManager.updateCore slug postData (postsOf data) with
    | .error e => .error e
    | .ok (newRec, posts) =>
      match GitHubAutomation.updateFile st "data/posts.json"
          (postsDocContent posts nowIso) with
      | .error e => .error e
      | .ok st' => .ok (newRec, st')

/-- `PostManager.delete` (admin lines 482-507). -/
def PostManager.delete (slug : String) (nowIso : String) (st : Store) :
    Except Err Store :=
  match fetchFile st "data/posts.json" with
  | .error e => .error e
  | .ok data =>
    match PostManager.deleteCore slug (postsOf data) with
    | .error e => .error e
    | .ok filteredPosts =>
      GitHubAutomation.updateFile st "data/posts.json"
        (postsDocContent filteredPosts nowIso)

/-- `CategoryManager.create` (admin lines 542-564). -/
def CategoryManager.create (now : Int) (nowIso : String) (categoryData : Obj)
    (st : Store) : Except Err (Value × Store) :=
  match fetchFile st "data/categories.json" with
  | .error e => .error e
  | .ok data =>
    match CategoryManager.createCore now categoryData (categoriesOf data) with
    | .error e => .error e
    | .ok (newCategory, cats) =>
      match GitHubAutomation.updateFile st "data/categories.json"
          (categoriesDocContent cats nowIso) with
      | .error e => .error e
      | .ok st' => .ok (newCategory, st')

/-!
An enumeration of the mutator operations, used to quantify over "every
mutator operation" (claim C9).  `run` executes the call against a store,
returning the path of the owning document and the new store.
-/

inductive MutatorCall where
  | addPost (now : Int) (today nowIso : String) (post : Obj)
  | updatePost (slug : String) (updates : Obj) (nowIso : String)
  | deletePost (slug : String) (nowIso : String)
  | pmCreate (now : Int) (today nowIso : String) (postData : Obj)
  | pmUpdate (slug : String) (postData : Obj) (nowIso : String)
  | pmDelete (slug : String) (nowIso : String)
  | cmCreate (now : Int) (nowIso : String) (categoryData : Obj)
  | siteUpdate (settings : Obj) (nowIso : String)
  | postsReplace (posts : List Value) (nowIso : String)
  | categoriesReplace (cats : List Value) (nowIso : String)

/-- The `new Date().toISOString()` timestamp the call writes. -/
def MutatorCall.stamp : MutatorCall → String
  | .addPost _ _ nowIso _ => nowIso
  | .updatePost _ _ nowIso => nowIso
  | .deletePost _ nowIso => nowIso
  | .pmCreate _ _ nowIso _ => nowIso
  | .pmUpdate _ _ nowIso => nowIso
  | .pmDelete _ nowIso => nowIso
  | .cmCreate _ nowIso _ => nowIso
  | .siteUpdate _ nowIso => nowIso
  | .postsReplace _ nowIso => nowIso
  | .categoriesReplace _ nowIso => nowIso

/-- Execute the mutator; on success return the owning document's path and
the store after the write. -/
def MutatorCall.run : MutatorCall → Store → Except Err (String × Store)
  | .addPost now today nowIso post, st =>
    match GitHubAutomation.addPost now today nowIso post st with
    | .error e => .error e
    | .ok (_, st') => .ok ("data/posts.json", st')
  | .updatePost slug updates nowIso, st =>
    match GitHubAutomation.updatePost slug updates nowIso st with
    | .error e => .error e
    | .ok (_, st') => .ok ("data/posts.json", st')
  | .deletePost slug nowIso, st =>
    match GitHubAutomation.deletePost slug nowIso st with
    | .error e => .error e
    | .ok st' => .ok ("data/posts.json", st')
  | .pmCreate now today nowIso postData, st =>
    match PostManager.create now today nowIso postData st with
    | .error e => .error e
    | .ok (_, st') => .ok ("data/posts.json", st')
  | .pmUpdate slug postData nowIso, st =>
    match PostManager.update slug postData nowIso st with
    | .error e => .error e
    | .ok (_, st') => .ok ("data/posts.json", st')
  | .pmDelete slug nowIso, st =>
    match PostManager.delete slug nowIso st with
    | .error e => .error e
    | .ok st' => .ok ("data/posts.json", st')
  | .cmCreate now nowIso categoryData, st =>
    match CategoryManager.create now nowIso categoryData st with
    | .error e => .error e
    | .ok (_, st') => .ok ("data/categories.json", st')
  | .siteUpdate settings nowIso, st =>
    match GitHubAutomation.updateSiteSettings st settings nowIso with
    | .error e => .error e
    | .ok st' => .ok ("data/site.json", st')
  | .postsReplace posts nowIso, st =>
    match GitHubAutomation.updatePosts st posts nowIso with
    | .error e => .error e
    | .ok st' => .ok ("data/posts.json", st')
  | .categoriesReplace cats nowIso, st =>
    match GitHubAutomation.updateCategories st cats nowIso with
    | .error e => .error e
    | .ok st' => .ok ("data/categories.json", st')

/-!
Batch operations (`BatchOperations`, automation lines 411-479), instrumented
with round-trip counters.  A `Trace` holds the current state of
`data/posts.json` together with the number of document reads (`getFile`
calls) and document writes (`updateFile` submissions) issued so far; the
spec counts the version fetch inside a write as part of that single write.
-/

structure Trace where
  doc : Option Value
  reads : Nat
  writes : Nat
deriving Repr

/-- A `getFile('data/posts.json')` round trip: the 404 default applies when
the document has never been written. -/
def traceGetPosts (t : Trace) : Value × Trace :=
  (match t.doc with
   | some v => v
   | none => .vobj [("posts", .varr [])],
   { t with reads := t.reads + 1 })

/-- An `updatePosts` round trip: one write of `{posts, lastUpdated}`. -/
def traceUpdatePosts (posts : List Value) (nowIso : String) (t : Trace) : Trace :=
  { t with doc := some (postsDocContent posts nowIso), writes := t.writes + 1 }

/-- `BatchOperations.importPosts` (automation lines 415-434): one
`automation.addPost` — hence one read and one write — per record; a record
whose `addPost` throws is pushed to the failed partition and the loop
continues. -/
def BatchOperations.importPosts (now : Int) (today nowIso : String) :
    List Obj → Trace → (List Value × List Obj) × Trace
  | [], t => (([], []), t)
  | postData :: rest, t =>
    match GitHubAutomation.addPostCore now today postData
        (postsOf (traceGetPosts t).1) with
    | .ok pr =>
      let r := BatchOperations.importPosts now today nowIso rest
        (traceUpdatePosts pr.2 nowIso (traceGetPosts t).2)
      ((pr.1 :: r.1.1, r.1.2), r.2)
    | .error _ =>
      let r := BatchOperations.importPosts now today nowIso rest (traceGetPosts t).2
      ((r.1.1, postData :: r.1.2), r.2)

/-- The loop body of `bulkUpdate` (automation lines 445-451): find the post
whose slug strictly equals `update.slug`; when found, merge `update.data`
over it in place and count it, otherwise skip the instruction. -/
def bulkUpdateLoop : List Obj → List Value → Nat → List Value × Nat
  | [], posts, updatedCount => (posts, updatedCount)
  | u :: rest, posts, updatedCount =>
    match findIndex (fun p => jsEq (vGet p "slug") (objGet u "slug")) posts with
    | some i =>
      bulkUpdateLoop rest
        (posts.set i (Value.vobj (asObj ((posts[i]?).getD .vnull) ++ asObjOpt (objGet u "data"))))
        (updatedCount + 1)
    | none => bulkUpdateLoop rest posts updatedCount

/-- `BatchOperations.bulkUpdate` (automation lines 439-459): one read, the
in-memory loop, one combined write; returns `{updated, total}`. -/
def BatchOperations.bulkUpdate (nowIso : String) (updates : List Obj)
    (t : Trace) : (Nat × Nat) × Trace :=
  let r := bulkUpdateLoop updates (postsOf (traceGetPosts t).1) 0
  ((r.2, updates.length), traceUpdatePosts r.1 nowIso (traceGetPosts t).2)

/-- `BatchOperations.bulkDelete` (automation lines 464-478): one read,
`posts.filter(p => !slugs.includes(p.slug))`, one write; returns
`{deleted, requested}`. -/
def BatchOperations.bulkDelete (nowIso : String) (slugs : List String)
    (t : Trace) : (Nat × Nat) × Trace :=
  let posts := postsOf (traceGetPosts t).1
  let filteredPosts :=
    posts.filter (fun p => !(slugs.any (fun s => jsEq (vGet p "slug") (some (.vstr s)))))
  ((posts.length - filteredPosts.length, slugs.length),
    traceUpdatePosts filteredPosts nowIso (traceGetPosts t).2)

/-!
Helper lemmas.
-/

theorem objGet_snoc (a : Obj) (k : String) (v : Value) :
    objGet (a ++ [(k, v)]) k = some v := by
  rw [objGet_append]
  simp [objGet]

theorem objGet_snoc_ne (a : Obj) (k k' : String) (v : Value) (h : k' ≠ k) :
    objGet (a ++ [(k, v)]) k' = objGet a k' := by
  rw [objGet_append]
  simp [objGet, Ne.symm h]

theorem objGet_asObj (v : Value) (k : String) : objGet (asObj v) k = vGet v k := by
  cases v <;> rfl

theorem jsEq_some_vstr (x : Option Value) (s : String)
    (h : jsEq x (some (.vstr s)) = true) : x = some (.vstr s) := by
  match x with
  | none => simp [jsEq] at h
  | some (.vstr s2) =>
    simp only [jsEq, primEq, beq_iff_eq] at h
    rw [h]
  | some .vnull | some (.vbool _) | some (.vnum _) | some (.varr _) | some (.vobj _) =>
    simp [jsEq, primEq] at h

theorem findIndex_found (p : Value → Bool) (l : List Value) (i : Nat)
    (h : findIndex p l = some i) : ∃ x, l[i]? = some x ∧ p x = true := by
  induction l generalizing i with
  | nil => simp [findIndex] at h
  | cons x xs ih =>
    by_cases hp : p x
    · simp only [findIndex, hp, if_true, Option.some.injEq] at h
      subst h
      exact ⟨x, by simp, hp⟩
    · rw [show findIndex p (x :: xs) = (findIndex p xs).map (fun i => i + 1) by
        simp [findIndex, hp]] at h
      cases hfi : findIndex p xs with
      | none => rw [hfi] at h; cases h
      | some j =>
        rw [hfi] at h
        simp only [Option.map_some', Option.some.injEq] at h
        subst h
        obtain ⟨y, hy, hpy⟩ := ih j hfi
        exact ⟨y, by simpa using hy, hpy⟩

theorem find?_filter_not (p : Value → Bool) (l : List Value) :
    (l.filter (fun q => !(p q))).find? p = none := by
  rw [List.find?_eq_none]
  intro x hx
  have := (List.mem_filter.mp hx).2
  simp only [Bool.not_eq_true'] at this
  simp [this]

theorem length_filter_not_add_countP (p : Value → Bool) (l : List Value) :
    (l.filter (fun q => !(p q))).length + l.countP p = l.length := by
  rw [List.countP_eq_length_filter]
  have h := List.length_eq_length_filter_add (l := l) p
  omega

theorem lookup_setFile (st : Store) (p : String) (fs : FileState) :
    Store.lookup (Store.setFile st p fs) p = some fs := by
  show Store.lookup ⟨setEntry p fs st.files⟩ p = some fs
  unfold Store.lookup
  induction st.files with
  | nil => simp [setEntry, List.find?]
  | cons q rest ih =>
    by_cases hq : q.1 == p
    · simp [setEntry, hq, List.find?]
    · simpa [setEntry, hq, List.find?_cons, List.find?] using ih

/-- The version assigned by a successful write of `path`. -/
def newSha (st : Store) (path : String) : Nat :=
  match Store.lookup st path with
  | some fs => fs.sha + 1
  | none => 0

/-- `createOrUpdateFile` always succeeds when run sequentially against the
store: the version it attaches was just fetched from that very store, so it
can never be stale. -/
theorem createOrUpdateFile_ok (st : Store) (path : String) (c : Value) :
    GitHubAutomation.createOrUpdateFile st path c =
      .ok (Store.setFile st path ⟨c, newSha st path⟩) := by
  unfold GitHubAutomation.createOrUpdateFile putContents getFileSHA newSha
  cases Store.lookup st path with
  | none => rfl
  | some fs => simp

theorem fetchFile_setFile (st : Store) (p : String) (fs : FileState) :
    fetchFile (Store.setFile st p fs) p = .ok fs.content := by
  unfold fetchFile storeResponse
  rw [lookup_setFile]
  rfl

theorem postsDocContent_lastUpdated (ps : List Value) (n : String) :
    vGet (postsDocContent ps n) "lastUpdated" = some (.vstr n) := by
  simp [postsDocContent, vGet, objGet]

theorem categoriesDocContent_lastUpdated (cs : List Value) (n : String) :
    vGet (categoriesDocContent cs n) "lastUpdated" = some (.vstr n) := by
  simp [categoriesDocContent, vGet, objGet]

theorem siteDocContent_lastUpdated (settings : Obj) (n : String) :
    vGet (siteDocContent settings n) "lastUpdated" = some (.vstr n) := by
  unfold siteDocContent
  show objGet (settings ++ [("lastUpdated", .vstr n)]) "lastUpdated" = some (.vstr n)
  exact objGet_snoc settings "lastUpdated" (.vstr n)

theorem postsOf_postsDocContent (ps : List Value) (n : String) :
    postsOf (postsDocContent ps n) = ps := by
  simp [postsOf, postsDocContent, vGet, objGet]

/-- Content written through `updateFile` is what a subsequent lookup of the
path sees, and its `lastUpdated` field survives verbatim. -/
theorem written_lastUpdated (st : Store) (p : String) (c : Value) (x : String)
    (hc : vGet c "lastUpdated" = some (.vstr x)) (st' : Store)
    (h : GitHubAutomation.updateFile st p c = .ok st') :
    (Store.lookup st' p).bind (fun fs => vGet fs.content "lastUpdated") =
      some (.vstr x) := by
  unfold GitHubAutomation.updateFile at h
  rw [createOrUpdateFile_ok] at h
  injection h with h
  subst h
  rw [lookup_setFile]
  simpa using hc

/-!
Claim theorems.
-/

/-- Claim C4, counterexample: the claimed example mapping of
`"  multiple   spaces "` to `"multiple-spaces"` is false.  The pipeline has
no trimming step, so the leading and trailing whitespace runs each become a
hyphen: both copies of the slug function return `"-multiple-spaces-"`,
which differs from the claimed `"multiple-spaces"`. -/
theorem c4_counterexample :
    GitHubAutomation.generateSlug "  multiple   spaces " = "-multiple-spaces-" ∧
    AdminUI.generateSlug "  multiple   spaces " = "-multiple-spaces-" ∧
    ("-multiple-spaces-" == "multiple-spaces") = false :=
  ⟨by decide, by decide, by decide⟩

/-- Claim C4, amended: for every title, slug derivation (both copies) equals
the spec's composition — lowercase; remove every character outside
`[a-z0-9\s-]`; replace each whitespace run by a single hyphen; collapse
hyphen runs; truncate to 100 characters — and `"Hello, World! 2025"` maps to
`"hello-world-2025"`, while `"  multiple   spaces "` maps to
`"-multiple-spaces-"` (no trimming, so outer whitespace yields outer
hyphens). -/
theorem c4_slug_pipeline :
    (∀ s : String, GitHubAutomation.generateSlug s = slugSpec s) ∧
    (∀ s : String, AdminUI.generateSlug s = slugSpec s) ∧
    GitHubAutomation.generateSlug "Hello, World! 2025" = "hello-world-2025" ∧
    GitHubAutomation.generateSlug "  multiple   spaces " = "-multiple-spaces-" := by
  refine ⟨fun s => ?_, fun s => ?_, by decide, by decide⟩
  · simp only [GitHubAutomation.generateSlug, slugSpec, squashRuns_eq_squashSpec]
  · simp only [AdminUI.generateSlug, slugSpec, squashRuns_eq_squashSpec]

/-- Claim C3: on each of the three data documents, a 404 from the store
yields that path's typed empty default — `{posts: []}`, `{categories: []}`,
`{}` — from both `getFile` copies, and any other non-success status is
thrown as an error. -/
theorem c3_not_found_defaults :
    (∀ body : Value,
      GitHubAPI.getFile "data/posts.json" ⟨false, 404, body⟩ =
        .ok (.vobj [("posts", .varr [])]) ∧
      GitHubAPI.getFile "data/categories.json" ⟨false, 404, body⟩ =
        .ok (.vobj [("categories", .varr [])]) ∧
      GitHubAPI.getFile "data/site.json" ⟨false, 404, body⟩ = .ok (.vobj []) ∧
      GitHubAutomation.getFile "data/posts.json" ⟨false, 404, body⟩ =
        .ok (.vobj [("posts", .varr [])]) ∧
      GitHubAutomation.getFile "data/categories.json" ⟨false, 404, body⟩ =
        .ok (.vobj [("categories", .varr [])]) ∧
      GitHubAutomation.getFile "data/site.json" ⟨false, 404, body⟩ = .ok (.vobj [])) ∧
    (∀ (path : String) (status : Nat) (body : Value), status ≠ 404 →
      GitHubAPI.getFile path ⟨false, status, body⟩ = .error .repoError ∧
      GitHubAutomation.getFile path ⟨false, status, body⟩ = .error .repoError) := by
  constructor
  · exact fun body => ⟨rfl, rfl, rfl, rfl, rfl, rfl⟩
  · intro path status body h
    have h4 : (status == 404) = false := by simpa using h
    constructor
    · simp [GitHubAPI.getFile, h4]
    · simp [GitHubAutomation.getFile, h4]

/-- Claim C3, witness: a 500 on the posts path is an error, not a default. -/
theorem c3_witness :
    GitHubAPI.getFile "data/posts.json" ⟨false, 500, .vnull⟩ = .error .repoError ∧
    GitHubAutomation.getFile "data/posts.json" ⟨false, 500, .vnull⟩ = .error .repoError :=
  c3_not_found_defaults.2 "data/posts.json" 500 .vnull (by decide)

/-- Claim C1, failing scenario: `data/posts.json` is at version 0 holding
`{posts: []}`.  Writers A and B both read it; A writes its list
`[{slug: "first"}]` successfully.  B then submits the write computed from
its now-stale read — and it also succeeds, because `createOrUpdateFile`
re-fetches the current version inside the write call instead of using the
version of the client's read.  No `ConflictError` is produced (the model's
`conflict` rejection is unreachable from this client), and the final
document holds only B's record: the first writer's change is lost, where
the claim requires the second write to fail and A's change to survive. -/
theorem c1_lost_update :
    GitHubAutomation.createOrUpdateFile
        ⟨[("data/posts.json", ⟨postsDocContent [] "T0", 0⟩)]⟩
        "data/posts.json"
        (postsDocContent [.vobj [("slug", .vstr "first")]] "T1") =
      .ok ⟨[("data/posts.json",
        ⟨postsDocContent [.vobj [("slug", .vstr "first")]] "T1", 1⟩)]⟩ ∧
    GitHubAutomation.createOrUpdateFile
        ⟨[("data/posts.json",
          ⟨postsDocContent [.vobj [("slug", .vstr "first")]] "T1", 1⟩)]⟩
        "data/posts.json"
        (postsDocContent [.vobj [("slug", .vstr "second")]] "T2") =
      .ok ⟨[("data/posts.json",
        ⟨postsDocContent [.vobj [("slug", .vstr "second")]] "T2", 2⟩)]⟩ ∧
    postsOf (postsDocContent [.vobj [("slug", .vstr "second")]] "T2") =
      [.vobj [("slug", .vstr "second")]] :=
  ⟨rfl, rfl, rfl⟩

/-- Claim C7: removing a post deletes the matching record and writes back
the filtered list when a match exists, fails with the not-found error when
none matches, and a second removal with the same key therefore always fails
with the not-found error; `PostManager.delete` embeds to the identical
record-level core. -/
theorem c7_remove_idempotent (slug : String) (posts : List Value) :
    (∀ p, posts.find? (postMatches slug) = some p →
      GitHubAutomation.deletePostCore slug posts =
        .ok (posts.filter (fun q => !(postMatches slug q))) ∧
      GitHubAutomation.deletePostCore slug
          (posts.filter (fun q => !(postMatches slug q))) = .error .notFound ∧
      (posts.filter (fun q => !(postMatches slug q))).length
          + posts.countP (postMatches slug) = posts.length) ∧
    (posts.find? (postMatches slug) = none →
      GitHubAutomation.deletePostCore slug posts = .error .notFound) ∧
    (∀ l, PostManager.deleteCore slug l = GitHubAutomation.deletePostCore slug l) := by
  refine ⟨?_, ?_, fun l => rfl⟩
  · intro p hp
    refine ⟨?_, ?_, length_filter_not_add_countP _ _⟩
    · unfold GitHubAutomation.deletePostCore
      rw [hp]
    · unfold GitHubAutomation.deletePostCore
      rw [find?_filter_not]
  · intro h
    unfold GitHubAutomation.deletePostCore
    rw [h]

/-- Claim C7, witness: deleting slug `"a"` from a two-post list removes
exactly that record; repeating the call fails with the not-found error. -/
theorem c7_witness :
    GitHubAutomation.deletePostCore "a"
        [.vobj [("slug", .vstr "a")], .vobj [("slug", .vstr "b")]] =
      .ok [.vobj [("slug", .vstr "b")]] ∧
    GitHubAutomation.deletePostCore "a" [.vobj [("slug", .vstr "b")]] =
      .error .notFound := by
  have h := (c7_remove_idempotent "a"
      [.vobj [("slug", .vstr "a")], .vobj [("slug", .vstr "b")]]).1
    (.vobj [("slug", .vstr "a")]) rfl
  exact ⟨h.1, h.2.1⟩

theorem importPosts_counts (now : Int) (today nowIso : String) :
    ∀ (records : List Obj) (t : Trace),
      (BatchOperations.importPosts now today nowIso records t).2.reads
          = t.reads + records.length ∧
      (BatchOperations.importPosts now today nowIso records t).2.writes
          = t.writes + (BatchOperations.importPosts now today nowIso records t).1.1.length ∧
      (BatchOperations.importPosts now today nowIso records t).1.1.length
          + (BatchOperations.importPosts now today nowIso records t).1.2.length
          = records.length := by
  intro records
  induction records with
  | nil => intro t; simp [BatchOperations.importPosts]
  | cons r rest ih =>
    intro t
    simp only [BatchOperations.importPosts]
    cases hc : GitHubAutomation.addPostCore now today r (postsOf (traceGetPosts t).1) with
    | ok pr =>
      have h := ih (traceUpdatePosts pr.2 nowIso (traceGetPosts t).2)
      simp only [traceUpdatePosts, traceGetPosts] at h ⊢
      simp only [List.length_cons]
      omega
    | error e =>
      have h := ih (traceGetPosts t).2
      simp only [traceGetPosts] at h ⊢
      simp only [List.length_cons]
      omega

/-- A collection of 5 records, for the bulk-update example. -/
def bulkDemoPosts : List Value :=
  [.vobj [("slug", .vstr "a"), ("views", .vnum 0)],
   .vobj [("slug", .vstr "b"), ("views", .vnum 0)],
   .vobj [("slug", .vstr "c"), ("views", .vnum 0)],
   .vobj [("slug", .vstr "d"), ("views", .vnum 0)],
   .vobj [("slug", .vstr "e"), ("views", .vnum 0)]]

/-- Three update instructions of which the third matches no record. -/
def bulkDemoInstrs : List Obj :=
  [[("slug", .vstr "a"), ("data", .vobj [("views", .vnum 9)])],
   [("slug", .vstr "b"), ("data", .vobj [("views", .vnum 9)])],
   [("slug", .vstr "zz"), ("data", .vobj [("views", .vnum 9)])]]

/-- Claim C2, counterexample: `importPosts` does not batch against one read
and one write — it performs one read and one write per record.  Importing a
batch of 2 records into an empty store issues 2 document reads and 2
document writes, not 1 and 1. -/
theorem c2_counterexample :
    (BatchOperations.importPosts 7 "2025-01-01" "T"
        [[("title", .vstr "a")], [("title", .vstr "b")]] ⟨none, 0, 0⟩).2.reads = 2 ∧
    (BatchOperations.importPosts 7 "2025-01-01" "T"
        [[("title", .vstr "a")], [("title", .vstr "b")]] ⟨none, 0, 0⟩).2.writes = 2 ∧
    ((2 : Nat) == 1) = false :=
  ⟨rfl, rfl, rfl⟩

/-- Claim C2, amended: `bulkUpdate` and `bulkDelete` each perform exactly
one read and one write of the document regardless of batch size, and an
unmatched instruction is skipped without aborting the batch — 3 update
instructions of which 1 is unmatched yield a report of 2 updated out of 3
against a single combined write.  `importPosts`, however, applies `addPost`
per record: it performs one read per record and one write per successful
record, recording each failed record and continuing (succeeded plus failed
partitions cover the batch). -/
theorem c2_batch_round_trips :
    (∀ (nowIso : String) (updates : List Obj) (t : Trace),
      (BatchOperations.bulkUpdate nowIso updates t).2.reads = t.reads + 1 ∧
      (BatchOperations.bulkUpdate nowIso updates t).2.writes = t.writes + 1) ∧
    (∀ (nowIso : String) (slugs : List String) (t : Trace),
      (BatchOperations.bulkDelete nowIso slugs t).2.reads = t.reads + 1 ∧
      (BatchOperations.bulkDelete nowIso slugs t).2.writes = t.writes + 1) ∧
    (∀ (now : Int) (today nowIso : String) (records : List Obj) (t : Trace),
      (BatchOperations.importPosts now today nowIso records t).2.reads
          = t.reads + records.length ∧
      (BatchOperations.importPosts now today nowIso records t).2.writes
          = t.writes + (BatchOperations.importPosts now today nowIso records t).1.1.length ∧
      (BatchOperations.importPosts now today nowIso records t).1.1.length
          + (BatchOperations.importPosts now today nowIso records t).1.2.length
          = records.length) ∧
    (BatchOperations.bulkUpdate "T1" bulkDemoInstrs
        ⟨some (postsDocContent bulkDemoPosts "T0"), 0, 0⟩).1 = (2, 3) ∧
    (BatchOperations.bulkUpdate "T1" bulkDemoInstrs
        ⟨some (postsDocContent bulkDemoPosts "T0"), 0, 0⟩).2.reads = 1 ∧
    (BatchOperations.bulkUpdate "T1" bulkDemoInstrs
        ⟨some (postsDocContent bulkDemoPosts "T0"), 0, 0⟩).2.writes = 1 := by
  refine ⟨?_, ?_, importPosts_counts, by decide, rfl, rfl⟩
  · intro nowIso updates t
    constructor <;>
      simp [BatchOperations.bulkUpdate, traceUpdatePosts, traceGetPosts]
  · intro nowIso slugs t
    constructor <;>
      simp [BatchOperations.bulkDelete, traceUpdatePosts, traceGetPosts]

/-- The record located by `findIndex` under `postMatches slug` carries
exactly the string slug searched for. -/
theorem found_slug (slug : String) (posts : List Value) (i : Nat)
    (hi : findIndex (postMatches slug) posts = some i) :
    vGet ((posts[i]?).getD .vnull) "slug" = some (.vstr slug) := by
  obtain ⟨x, hx, hpx⟩ := findIndex_found _ _ _ hi
  simp only [hx, Option.getD_some]
  exact jsEq_some_vstr _ _ hpx

/-- Claim C5, counterexample: a patch that does not mention the title but
does mention `slug` (here `{slug: "x"}`) is not merged field-for-field by
`GitHubAutomation.updatePost`: the call succeeds, yet the updated record's
`slug` still reads `"a"` — the old slug — because the unconditional
`slug:` property written after the spread overrides the patch's value.  So
the merge does not replace every field present in the patch. -/
theorem c5_counterexample :
    GitHubAutomation.updatePostCore "a" [("slug", .vstr "x")]
        [.vobj [("slug", .vstr "a"), ("views", .vnum 1)]] =
      .ok (.vobj [("slug", .vstr "a"), ("views", .vnum 1),
            ("slug", .vstr "x"), ("slug", .vstr "a")],
        [.vobj [("slug", .vstr "a"), ("views", .vnum 1),
            ("slug", .vstr "x"), ("slug", .vstr "a")]]) ∧
    vGet (.vobj [("slug", .vstr "a"), ("views", .vnum 1),
        ("slug", .vstr "x"), ("slug", .vstr "a")]) "slug" = some (.vstr "a") ∧
    (("a" == "x") = false) :=
  ⟨rfl, rfl, rfl⟩

/-- Claim C5, amended: for a record present under `slug` and a patch whose
`title` field is absent, `GitHubAutomation.updatePost` succeeds and shallow
merges: every field other than `slug` that is present in the patch replaces
the existing value, every other field of the record is preserved unchanged,
and the `slug` field is reset to the existing record's slug (so a `slug`
supplied in such a patch is ignored).  `PostManager.update`, by contrast,
throws a TypeError on any patch without a title.  In particular
`update(slug, {views: 42})` preserves every other field only on the
automation implementation. -/
theorem c5_merge_without_title (slug : String) (patch : Obj) (posts : List Value)
    (i : Nat) (hi : findIndex (postMatches slug) posts = some i)
    (ht : objGet patch "title" = none) :
    ∃ r, GitHubAutomation.updatePostCore slug patch posts = .ok (r, posts.set i r) ∧
      (∀ k, k ≠ "slug" →
        vGet r k = match objGet patch k with
          | some v => some v
          | none => vGet ((posts[i]?).getD .vnull) k) ∧
      vGet r "slug" = some (.vstr slug) ∧
      vGet ((posts[i]?).getD .vnull) "slug" = some (.vstr slug) ∧
      PostManager.updateCore slug patch posts = .error .typeError := by
  have hold := found_slug slug posts i hi
  have htr : truthyOpt (objGet patch "title") = false := by rw [ht]; rfl
  refine ⟨.vobj (asObj ((posts[i]?).getD .vnull) ++ patch ++
      [("slug", (vGet ((posts[i]?).getD .vnull) "slug").getD .vnull)]), ?_, ?_, ?_, hold, ?_⟩
  · unfold GitHubAutomation.updatePostCore
    rw [hi]
    simp only [htr, Bool.false_eq_true, if_false]
  · intro k hk
    show objGet ((asObj ((posts[i]?).getD .vnull) ++ patch) ++
        [("slug", (vGet ((posts[i]?).getD .vnull) "slug").getD .vnull)]) k = _
    rw [objGet_snoc_ne _ _ _ _ hk, objGet_append]
    cases objGet patch k with
    | some v => rfl
    | none => simpa using (objGet_asObj ((posts[i]?).getD .vnull) k)
  · show objGet ((asObj ((posts[i]?).getD .vnull) ++ patch) ++
        [("slug", (vGet ((posts[i]?).getD .vnull) "slug").getD .vnull)]) "slug" = _
    rw [objGet_snoc, hold]
    rfl
  · unfold PostManager.updateCore
    rw [hi]
    simp [ht, AdminUI.generateSlugJS, Except.map]

/-- Claim C5, witness: concrete instance — posts `[{slug: "s1", author:
"ann", views: 3}]`, patch `{views: 42}`. -/
theorem c5_witness :
    ∃ r, GitHubAutomation.updatePostCore "s1" [("views", .vnum 42)]
        [.vobj [("slug", .vstr "s1"), ("author", .vstr "ann"), ("views", .vnum 3)]] =
      .ok (r, [.vobj [("slug", .vstr "s1"), ("author", .vstr "ann"),
          ("views", .vnum 3)]].set 0 r) ∧
      (∀ k, k ≠ "slug" →
        vGet r k = match objGet [("views", .vnum 42)] k with
          | some v => some v
          | none => vGet (([.vobj [("slug", .vstr "s1"), ("author", .vstr "ann"),
              ("views", .vnum 3)]][0]?).getD .vnull) k) ∧
      vGet r "slug" = some (.vstr "s1") ∧
      vGet (([.vobj [("slug", .vstr "s1"), ("author", .vstr "ann"),
          ("views", .vnum 3)]][0]?).getD .vnull) "slug" = some (.vstr "s1") ∧
      PostManager.updateCore "s1" [("views", .vnum 42)]
        [.vobj [("slug", .vstr "s1"), ("author", .vstr "ann"), ("views", .vnum 3)]] =
          .error .typeError :=
  c5_merge_without_title "s1" [("views", .vnum 42)]
    [.vobj [("slug", .vstr "s1"), ("author", .vstr "ann"), ("views", .vnum 3)]]
    0 rfl rfl

/-- Claim C6, counterexample: on the cited admin implementation
(`PostManager.update`), a patch with no title does not leave the record's
slug unchanged — the call throws a TypeError before any record is produced,
because the slug is recomputed unconditionally from the absent
`postData.title`. -/
theorem c6_counterexample :
    PostManager.updateCore "b-post" [("views", .vnum 7)]
      [.vobj [("slug", .vstr "b-post"), ("views", .vnum 1)]] = .error .typeError :=
  rfl

/-- Claim C6, amended: for a record present under `slug`:
`GitHubAutomation.updatePost` with a patch carrying a non-empty string
title yields a record whose slug is derived from that new title (the
identity key silently changes), and with a patch carrying no title leaves
the slug equal to the search key, i.e. unchanged; `PostManager.update`
likewise derives the slug from a non-empty string title in the patch, but
with no title in the patch it throws a TypeError instead of leaving the
slug unchanged. -/
theorem c6_slug_regen (slug t : String) (patch : Obj) (posts : List Value)
    (i : Nat) (hi : findIndex (postMatches slug) posts = some i) :
    (objGet patch "title" = some (.vstr t) → t ≠ "" →
      ∀ r rest, GitHubAutomation.updatePostCore slug patch posts = .ok (r, rest) →
        vGet r "slug" = some (.vstr (GitHubAutomation.generateSlug t))) ∧
    (objGet patch "title" = none →
      ∀ r rest, GitHubAutomation.updatePostCore slug patch posts = .ok (r, rest) →
        vGet r "slug" = some (.vstr slug)) ∧
    (objGet patch "title" = some (.vstr t) → t ≠ "" →
      ∀ r rest, PostManager.updateCore slug patch posts = .ok (r, rest) →
        vGet r "slug" = some (.vstr (AdminUI.generateSlug t))) ∧
    (objGet patch "title" = none →
      PostManager.updateCore slug patch posts = .error .typeError) := by
  have hold := found_slug slug posts i hi
  refine ⟨?_, ?_, ?_, ?_⟩
  · intro ht htt r rest h
    have htv : truthyOpt (some (Value.vstr t)) = true := by
      simp only [truthyOpt, truthy, bne_iff_ne, ne_eq, decide_not]
      simpa using htt
    unfold GitHubAutomation.updatePostCore at h
    rw [hi, ht] at h
    simp only [htv, if_true, GitHubAutomation.generateSlugJS, Except.map] at h
    injection h with h
    have hr : r = Value.vobj ((asObj ((posts[i]?).getD .vnull) ++ patch) ++
        [("slug", .vstr (GitHubAutomation.generateSlug t))]) := by
      have := congrArg Prod.fst h
      exact this.symm
    rw [hr]
    show objGet ((asObj ((posts[i]?).getD .vnull) ++ patch) ++
        [("slug", .vstr (GitHubAutomation.generateSlug t))]) "slug" = _
    rw [objGet_snoc]
  · intro ht r rest h
    have htr : truthyOpt (objGet patch "title") = false := by rw [ht]; rfl
    unfold GitHubAutomation.updatePostCore at h
    rw [hi] at h
    simp only [htr, Bool.false_eq_true, if_false] at h
    injection h with h
    have hr : r = Value.vobj ((asObj ((posts[i]?).getD .vnull) ++ patch) ++
        [("slug", (vGet ((posts[i]?).getD .vnull) "slug").getD .vnull)]) := by
      have := congrArg Prod.fst h
      exact this.symm
    rw [hr]
    show objGet ((asObj ((posts[i]?).getD .vnull) ++ patch) ++
        [("slug", (vGet ((posts[i]?).getD .vnull) "slug").getD .vnull)]) "slug" = _
    rw [objGet_snoc, hold]
    rfl
  · intro ht htt r rest h
    unfold PostManager.updateCore at h
    rw [hi, ht] at h
    simp only [AdminUI.generateSlugJS, Except.map] at h
    injection h with h
    have hr : r = Value.vobj ((asObj ((posts[i]?).getD .vnull) ++ patch) ++
        [("slug", .vstr (AdminUI.generateSlug t))]) := by
      have := congrArg Prod.fst h
      exact this.symm
    rw [hr]
    show objGet ((asObj ((posts[i]?).getD .vnull) ++ patch) ++
        [("slug", .vstr (AdminUI.generateSlug t))]) "slug" = _
    rw [objGet_snoc]
  · intro ht
    unfold PostManager.updateCore
    rw [hi]
    simp [ht, AdminUI.generateSlugJS, Except.map]

/-- Claim C6, witness: updating `{slug: "s2", title: "Old"}` with
`{title: "New Title"}` yields slug `"new-title"`; updating it with
`{views: 1}` on the admin implementation throws. -/
theorem c6_witness :
    vGet (.vobj [("slug", .vstr "s2"), ("title", .vstr "Old"),
        ("title", .vstr "New Title"), ("slug", .vstr "new-title")]) "slug" =
      some (.vstr (GitHubAutomation.generateSlug "New Title")) ∧
    PostManager.updateCore "s2" [("views", .vnum 1)]
        [.vobj [("slug", .vstr "s2"), ("title", .vstr "Old")]] = .error .typeError := by
  constructor
  · exact (c6_slug_regen "s2" "New Title" [("title", .vstr "New Title")]
        [.vobj [("slug", .vstr "s2"), ("title", .vstr "Old")]] 0 rfl).1
      rfl (by decide)
      (.vobj [("slug", .vstr "s2"), ("title", .vstr "Old"),
        ("title", .vstr "New Title"), ("slug", .vstr "new-title")])
      [.vobj [("slug", .vstr "s2"), ("title", .vstr "Old"),
        ("title", .vstr "New Title"), ("slug", .vstr "new-title")]]
      rfl
  · exact (c6_slug_regen "s2" "x" [("views", .vnum 1)]
        [.vobj [("slug", .vstr "s2"), ("title", .vstr "Old")]] 0 rfl).2.2.2 rfl

/-- Claim C10, counterexample: on the same document and the same
title-free patch `{views: 42}`, the two near-duplicate implementations do
not return the same result: the automation module's `updatePost` succeeds
(keeping the old slug), while the admin module's `PostManager.update`
throws a TypeError. -/
theorem c10_counterexample :
    GitHubAutomation.updatePostCore "a" [("views", .vnum 42)]
        [.vobj [("slug", .vstr "a"), ("title", .vstr "A")]] =
      .ok (.vobj [("slug", .vstr "a"), ("title", .vstr "A"),
            ("views", .vnum 42), ("slug", .vstr "a")],
        [.vobj [("slug", .vstr "a"), ("title", .vstr "A"),
            ("views", .vnum 42), ("slug", .vstr "a")]]) ∧
    PostManager.updateCore "a" [("views", .vnum 42)]
        [.vobj [("slug", .vstr "a"), ("title", .vstr "A")]] = .error .typeError :=
  ⟨rfl, rfl⟩

/-- Claim C10, amended: whenever the patch's `title` field is present and
truthy, `PostManager.update` and `GitHubAutomation.updatePost` agree
completely — same result, same updated record, same written-back list (and
in that case both derive the slug from the patch title).  When the patch
has no truthy title the implementations disagree: the admin copy throws a
TypeError where the automation copy succeeds with the old slug. -/
theorem c10_impls_agree_on_truthy_title (slug : String) (patch : Obj)
    (posts : List Value) (h : truthyOpt (objGet patch "title") = true) :
    GitHubAutomation.updatePostCore slug patch posts =
      PostManager.updateCore slug patch posts := by
  unfold GitHubAutomation.updatePostCore PostManager.updateCore
  cases findIndex (postMatches slug) posts with
  | none => rfl
  | some i =>
    simp only [h, if_true]
    rfl

/-- Claim C10, witness: with patch `{title: "T"}` both implementations give
the same answer on a concrete document. -/
theorem c10_witness :
    GitHubAutomation.updatePostCore "w" [("title", .vstr "T")]
        [.vobj [("slug", .vstr "w"), ("views", .vnum 2)]] =
      PostManager.updateCore "w" [("title", .vstr "T")]
        [.vobj [("slug", .vstr "w"), ("views", .vnum 2)]] :=
  c10_impls_agree_on_truthy_title "w" [("title", .vstr "T")]
    [.vobj [("slug", .vstr "w"), ("views", .vnum 2)]] (by decide)

/-- Field defaults of the record built by `addPost`: any of `id`, `slug`,
`date`, `views` absent from the input comes out populated with its default,
because the spread of `post` after the default fields contributes nothing
for an absent key. -/
theorem addPost_fields (now : Int) (today : String) (post : Obj) (slugv : Value) :
    (objGet post "id" = none →
      vGet (.vobj ([("id", jsOr (objGet post "id") (.vnum now)), ("slug", slugv),
        ("date", jsOr (objGet post "date") (.vstr today)), ("views", .vnum 0)] ++ post))
        "id" = some (.vnum now)) ∧
    (objGet post "slug" = none →
      vGet (.vobj ([("id", jsOr (objGet post "id") (.vnum now)), ("slug", slugv),
        ("date", jsOr (objGet post "date") (.vstr today)), ("views", .vnum 0)] ++ post))
        "slug" = some slugv) ∧
    (objGet post "date" = none →
      vGet (.vobj ([("id", jsOr (objGet post "id") (.vnum now)), ("slug", slugv),
        ("date", jsOr (objGet post "date") (.vstr today)), ("views", .vnum 0)] ++ post))
        "date" = some (.vstr today)) ∧
    (objGet post "views" = none →
      vGet (.vobj ([("id", jsOr (objGet post "id") (.vnum now)), ("slug", slugv),
        ("date", jsOr (objGet post "date") (.vstr today)), ("views", .vnum 0)] ++ post))
        "views" = some (.vnum 0)) := by
  refine ⟨?_, ?_, ?_, ?_⟩ <;> intro h <;>
    (show objGet _ _ = _; rw [objGet_append, h]; rfl)

/-- `addPostCore` on an input record with a string title always succeeds,
building the defaults-then-spread record; when the input has no slug of its
own the generated slug is derived from the title. -/
theorem addPostCore_with_title (now : Int) (today t : String) (post : Obj)
    (posts : List Value) (ht : objGet post "title" = some (.vstr t)) :
    ∃ slugv, GitHubAutomation.addPostCore now today post posts =
        .ok (.vobj ([("id", jsOr (objGet post "id") (.vnum now)), ("slug", slugv),
          ("date", jsOr (objGet post "date") (.vstr today)), ("views", .vnum 0)] ++ post),
          .vobj ([("id", jsOr (objGet post "id") (.vnum now)), ("slug", slugv),
            ("date", jsOr (objGet post "date") (.vstr today)), ("views", .vnum 0)] ++ post)
          :: posts) ∧
      (objGet post "slug" = none → slugv = .vstr (GitHubAutomation.generateSlug t)) := by
  cases hs : objGet post "slug" with
  | none =>
    refine ⟨.vstr (GitHubAutomation.generateSlug t), ?_, fun _ => rfl⟩
    unfold GitHubAutomation.addPostCore
    rw [hs, ht]
    simp only [GitHubAutomation.generateSlugJS, Except.map]
  | some v =>
    cases htv : truthy v with
    | true =>
      refine ⟨v, ?_, fun h0 => Option.noConfusion h0⟩
      unfold GitHubAutomation.addPostCore
      rw [hs]
      simp only [htv, if_true]
    | false =>
      refine ⟨.vstr (GitHubAutomation.generateSlug t), ?_,
        fun h0 => Option.noConfusion h0⟩
      unfold GitHubAutomation.addPostCore
      rw [hs, ht]
      simp only [htv, Bool.false_eq_true, if_false, GitHubAutomation.generateSlugJS,
        Except.map]

/-- Claim C8, counterexample: `addPost` does not succeed for every input
record — a record with neither a title nor a slug (here `{}`) makes the
slug default `this.generateSlug(post.title)` throw a TypeError, so nothing
is prepended and no record is returned. -/
theorem c8_counterexample :
    GitHubAutomation.addPost 5 "2025-10-11" "TZ" [] ⟨[]⟩ = .error .typeError :=
  rfl

/-- Field behaviour of the record literal built by `PostManager.create`
(admin lines 421-427): `{id, slug, ...postData, views: 0, date:
postData.date || today}` — the spread can override the precomputed `id` and
`slug`, while `views: 0` and the `date` default are written after the
spread, so `views` comes out 0 whatever the input held. -/
theorem pmCreate_fields (now : Int) (today : String) (postData : Obj) (s : String) :
    (objGet postData "id" = none →
      vGet (.vobj (([("id", .vnum now), ("slug", .vstr s)] ++ postData) ++
        [("views", .vnum 0), ("date", jsOr (objGet postData "date") (.vstr today))]))
        "id" = some (.vnum now)) ∧
    (objGet postData "slug" = none →
      vGet (.vobj (([("id", .vnum now), ("slug", .vstr s)] ++ postData) ++
        [("views", .vnum 0), ("date", jsOr (objGet postData "date") (.vstr today))]))
        "slug" = some (.vstr s)) ∧
    (objGet postData "date" = none →
      vGet (.vobj (([("id", .vnum now), ("slug", .vstr s)] ++ postData) ++
        [("views", .vnum 0), ("date", jsOr (objGet postData "date") (.vstr today))]))
        "date" = some (.vstr today)) ∧
    vGet (.vobj (([("id", .vnum now), ("slug", .vstr s)] ++ postData) ++
        [("views", .vnum 0), ("date", jsOr (objGet postData "date") (.vstr today))]))
      "views" = some (.vnum 0) := by
  refine ⟨?_, ?_, ?_, ?_⟩
  · intro h
    show objGet _ _ = _
    rw [objGet_append, objGet_append, h]
    rfl
  · intro h
    show objGet _ _ = _
    rw [objGet_append, objGet_append, h]
    rfl
  · intro h
    show objGet _ _ = _
    rw [objGet_append, objGet_append, h]
    rfl
  · show objGet _ _ = _
    rw [objGet_append]
    rfl

/-- `PostManager.createCore` succeeds on any input carrying a string
title, building `{id, slug, ...postData, views: 0, date}` and prepending
it to the list. -/
theorem pmCreateCore_with_title (now : Int) (today t : String) (postData : Obj)
    (posts : List Value) (ht : objGet postData "title" = some (.vstr t)) :
    PostManager.createCore now today postData posts =
      .ok (.vobj (([("id", .vnum now), ("slug", .vstr (AdminUI.generateSlug t))] ++
            postData) ++
          [("views", .vnum 0), ("date", jsOr (objGet postData "date") (.vstr today))]),
        .vobj (([("id", .vnum now), ("slug", .vstr (AdminUI.generateSlug t))] ++
            postData) ++
          [("views", .vnum 0), ("date", jsOr (objGet postData "date") (.vstr today))])
        :: posts) := by
  unfold PostManager.createCore
  rw [ht]
  simp only [AdminUI.generateSlugJS]

/-- `PostManager.createCore` throws a TypeError whenever the input carries
no title — even when a truthy slug is supplied — because
`AdminUI.generateSlug(postData.title)` is evaluated unconditionally before
the record literal is assembled. -/
theorem pmCreateCore_no_title (now : Int) (today : String) (postData : Obj)
    (posts : List Value) (ht : objGet postData "title" = none) :
    PostManager.createCore now today postData posts = .error .typeError := by
  unfold PostManager.createCore
  rw [ht]
  rfl

/-- Claim C8, amended: for every posts document and every input record
carrying a string title, both cited insert implementations —
`GitHubAutomation.addPost` and `PostManager.create` — prepend the finished
record to the head of the list and return it, so a subsequent `getFile` of
the posts document shows the new record first with `id`, `slug`, `date`
populated from defaults when the input omitted them; `addPost` populates
`views: 0` when the input omitted it, while `PostManager.create` writes
`views: 0` after the spread and so forces it unconditionally.  For records
without a string title, the claim fails: `addPost` throws a TypeError
unless a truthy slug is supplied, and `PostManager.create` throws a
TypeError always, even given a truthy slug. -/
theorem c8_insert_round_trip (now : Int) (today nowIso t : String)
    (post : Obj) (st : Store) (cur : Value)
    (hcur : fetchFile st "data/posts.json" = .ok cur)
    (ht : objGet post "title" = some (.vstr t)) :
    (∃ r st', GitHubAutomation.addPost now today nowIso post st = .ok (r, st') ∧
      fetchFile st' "data/posts.json" = .ok (postsDocContent (r :: postsOf cur) nowIso) ∧
      postsOf (postsDocContent (r :: postsOf cur) nowIso) = r :: postsOf cur ∧
      (objGet post "id" = none → vGet r "id" = some (.vnum now)) ∧
      (objGet post "slug" = none →
        vGet r "slug" = some (.vstr (GitHubAutomation.generateSlug t))) ∧
      (objGet post "date" = none → vGet r "date" = some (.vstr today)) ∧
      (objGet post "views" = none → vGet r "views" = some (.vnum 0))) ∧
    (∃ r st', PostManager.create now today nowIso post st = .ok (r, st') ∧
      fetchFile st' "data/posts.json" = .ok (postsDocContent (r :: postsOf cur) nowIso) ∧
      postsOf (postsDocContent (r :: postsOf cur) nowIso) = r :: postsOf cur ∧
      (objGet post "id" = none → vGet r "id" = some (.vnum now)) ∧
      (objGet post "slug" = none →
        vGet r "slug" = some (.vstr (AdminUI.generateSlug t))) ∧
      (objGet post "date" = none → vGet r "date" = some (.vstr today)) ∧
      vGet r "views" = some (.vnum 0)) ∧
    (∀ (postData : Obj) (posts : List Value), objGet postData "title" = none →
      PostManager.createCore now today postData posts = .error .typeError) := by
  refine ⟨?_, ?_, fun postData posts h => pmCreateCore_no_title now today postData posts h⟩
  · obtain ⟨slugv, hcore, hslug⟩ :=
      addPostCore_with_title now today t post (postsOf cur) ht
    have hadd : GitHubAutomation.addPost now today nowIso post st =
        .ok (.vobj ([("id", jsOr (objGet post "id") (.vnum now)), ("slug", slugv),
            ("date", jsOr (objGet post "date") (.vstr today)), ("views", .vnum 0)] ++ post),
          Store.setFile st "data/posts.json"
            ⟨postsDocContent
              ((.vobj ([("id", jsOr (objGet post "id") (.vnum now)), ("slug", slugv),
                ("date", jsOr (objGet post "date") (.vstr today)), ("views", .vnum 0)] ++ post))
                :: postsOf cur) nowIso,
             newSha st "data/posts.json"⟩) := by
      unfold GitHubAutomation.addPost
      simp only [hcur, hcore]
      unfold GitHubAutomation.updatePosts GitHubAutomation.updateFile
      rw [createOrUpdateFile_ok]
    refine ⟨_, _, hadd, fetchFile_setFile _ _ _, postsOf_postsDocContent _ _,
      (addPost_fields now today post slugv).1, ?_,
      (addPost_fields now today post slugv).2.2.1,
      (addPost_fields now today post slugv).2.2.2⟩
    intro h
    rw [← hslug h]
    exact (addPost_fields now today post slugv).2.1 h
  · have hcore := pmCreateCore_with_title now today t post (postsOf cur) ht
    have hpm : PostManager.create now today nowIso post st =
        .ok (.vobj (([("id", .vnum now), ("slug", .vstr (AdminUI.generateSlug t))] ++
              post) ++
            [("views", .vnum 0), ("date", jsOr (objGet post "date") (.vstr today))]),
          Store.setFile st "data/posts.json"
            ⟨postsDocContent
              ((.vobj (([("id", .vnum now), ("slug", .vstr (AdminUI.generateSlug t))] ++
                  post) ++
                [("views", .vnum 0), ("date", jsOr (objGet post "date") (.vstr today))]))
                :: postsOf cur) nowIso,
             newSha st "data/posts.json"⟩) := by
      unfold PostManager.create
      simp only [hcur, hcore]
      unfold GitHubAutomation.updateFile
      rw [createOrUpdateFile_ok]
    refine ⟨_, _, hpm, fetchFile_setFile _ _ _, postsOf_postsDocContent _ _,
      (pmCreate_fields now today post (AdminUI.generateSlug t)).1,
      (pmCreate_fields now today post (AdminUI.generateSlug t)).2.1,
      (pmCreate_fields now today post (AdminUI.generateSlug t)).2.2.1,
      (pmCreate_fields now today post (AdminUI.generateSlug t)).2.2.2⟩

/-- Claim C8, witness: inserting `{title: "My Post"}` into an empty store
(404 default) through either implementation prepends a record with
generated id, slug, date and zero views; a title-less record makes
`PostManager.create` throw. -/
theorem c8_witness :
    (∃ r st', GitHubAutomation.addPost 99 "2025-10-11" "TZ"
        [("title", .vstr "My Post")] ⟨[]⟩ = .ok (r, st') ∧
      fetchFile st' "data/posts.json" =
        .ok (postsDocContent (r :: postsOf (.vobj [("posts", .varr [])])) "TZ") ∧
      postsOf (postsDocContent (r :: postsOf (.vobj [("posts", .varr [])])) "TZ") =
        r :: postsOf (.vobj [("posts", .varr [])]) ∧
      (objGet [("title", .vstr "My Post")] "id" = none →
        vGet r "id" = some (.vnum 99)) ∧
      (objGet [("title", .vstr "My Post")] "slug" = none →
        vGet r "slug" = some (.vstr (GitHubAutomation.generateSlug "My Post"))) ∧
      (objGet [("title", .vstr "My Post")] "date" = none →
        vGet r "date" = some (.vstr "2025-10-11")) ∧
      (objGet [("title", .vstr "My Post")] "views" = none →
        vGet r "views" = some (.vnum 0))) ∧
    (∃ r st', PostManager.create 99 "2025-10-11" "TZ"
        [("title", .vstr "My Post")] ⟨[]⟩ = .ok (r, st') ∧
      fetchFile st' "data/posts.json" =
        .ok (postsDocContent (r :: postsOf (.vobj [("posts", .varr [])])) "TZ") ∧
      postsOf (postsDocContent (r :: postsOf (.vobj [("posts", .varr [])])) "TZ") =
        r :: postsOf (.vobj [("posts", .varr [])]) ∧
      (objGet [("title", .vstr "My Post")] "id" = none →
        vGet r "id" = some (.vnum 99)) ∧
      (objGet [("title", .vstr "My Post")] "slug" = none →
        vGet r "slug" = some (.vstr (AdminUI.generateSlug "My Post"))) ∧
      (objGet [("title", .vstr "My Post")] "date" = none →
        vGet r "date" = some (.vstr "2025-10-11")) ∧
      vGet r "views" = some (.vnum 0)) ∧
    (∀ (postData : Obj) (posts : List Value), objGet postData "title" = none →
      PostManager.createCore 99 "2025-10-11" postData posts = .error .typeError) :=
  c8_insert_round_trip 99 "2025-10-11" "TZ" "My Post" [("title", .vstr "My Post")]
    ⟨[]⟩ (.vobj [("posts", .varr [])]) rfl rfl

/-- Claim C9: every mutator operation — post create/update/delete in both
modules, category create, site-settings update, and the raw document
replacers — writes its owning document with the `lastUpdated` field
rewritten to the current timestamp of the call; no mutator writes a
document without refreshing `lastUpdated`. -/
theorem c9_mutators_refresh_lastUpdated (c : MutatorCall) (st : Store)
    (p : String) (st' : Store) (h : MutatorCall.run c st = .ok (p, st')) :
    (Store.lookup st' p).bind (fun fs => vGet fs.content "lastUpdated") =
      some (.vstr (MutatorCall.stamp c)) := by
  cases c with
  | addPost now today nowIso post =>
    simp only [MutatorCall.run, MutatorCall.stamp, GitHubAutomation.addPost,
      GitHubAutomation.updatePosts, GitHubAutomation.updateFile,
      createOrUpdateFile_ok] at h ⊢
    split at h
    · exact Except.noConfusion h
    · rename_i fst stX heq
      injection h with h1
      injection h1 with hp hst
      subst hp; subst hst
      split at heq
      · exact Except.noConfusion heq
      · split at heq
        · exact Except.noConfusion heq
        · injection heq with h2
          injection h2 with hv hstX
          subst hstX
          rw [lookup_setFile]
          exact postsDocContent_lastUpdated _ _
  | updatePost slug updates nowIso =>
    simp only [MutatorCall.run, MutatorCall.stamp, GitHubAutomation.updatePost,
      GitHubAutomation.updatePosts, GitHubAutomation.updateFile,
      createOrUpdateFile_ok] at h ⊢
    split at h
    · exact Except.noConfusion h
    · rename_i fst stX heq
      injection h with h1
      injection h1 with hp hst
      subst hp; subst hst
      split at heq
      · exact Except.noConfusion heq
      · split at heq
        · exact Except.noConfusion heq
        · injection heq with h2
          injection h2 with hv hstX
          subst hstX
          rw [lookup_setFile]
          exact postsDocContent_lastUpdated _ _
  | deletePost slug nowIso =>
    simp only [MutatorCall.run, MutatorCall.stamp, GitHubAutomation.deletePost,
      GitHubAutomation.updatePosts, GitHubAutomation.updateFile,
      createOrUpdateFile_ok] at h ⊢
    split at h
    · exact Except.noConfusion h
    · rename_i stX heq
      injection h with h1
      injection h1 with hp hst
      subst hp; subst hst
      split at heq
      · exact Except.noConfusion heq
      · split at heq
        · exact Except.noConfusion heq
        · injection heq with hstX
          subst hstX
          rw [lookup_setFile]
          exact postsDocContent_lastUpdated _ _
  | pmCreate now today nowIso postData =>
    simp only [MutatorCall.run, MutatorCall.stamp, PostManager.create,
      GitHubAutomation.updateFile, createOrUpdateFile_ok] at h ⊢
    split at h
    · exact Except.noConfusion h
    · rename_i fst stX heq
      injection h with h1
      injection h1 with hp hst
      subst hp; subst hst
      split at heq
      · exact Except.noConfusion heq
      · split at heq
        · exact Except.noConfusion heq
        · injection heq with h2
          injection h2 with hv hstX
          subst hstX
          rw [lookup_setFile]
          exact postsDocContent_lastUpdated _ _
  | pmUpdate slug postData nowIso =>
    simp only [MutatorCall.run, MutatorCall.stamp, PostManager.update,
      GitHubAutomation.updateFile, createOrUpdateFile_ok] at h ⊢
    split at h
    · exact Except.noConfusion h
    · rename_i fst stX heq
      injection h with h1
      injection h1 with hp hst
      subst hp; subst hst
      split at heq
      · exact Except.noConfusion heq
      · split at heq
        · exact Except.noConfusion heq
        · injection heq with h2
          injection h2 with hv hstX
          subst hstX
          rw [lookup_setFile]
          exact postsDocContent_lastUpdated _ _
  | pmDelete slug nowIso =>
    simp only [MutatorCall.run, MutatorCall.stamp, PostManager.delete,
      GitHubAutomation.updateFile, createOrUpdateFile_ok] at h ⊢
    split at h
    · exact Except.noConfusion h
    · rename_i stX heq
      injection h with h1
      injection h1 with hp hst
      subst hp; subst hst
      split at heq
      · exact Except.noConfusion heq
      · split at heq
        · exact Except.noConfusion heq
        · injection heq with hstX
          subst hstX
          rw [lookup_setFile]
          exact postsDocContent_lastUpdated _ _
  | cmCreate now nowIso categoryData =>
    simp only [MutatorCall.run, MutatorCall.stamp, CategoryManager.create,
      GitHubAutomation.updateFile, createOrUpdateFile_ok] at h ⊢
    split at h
    · exact Except.noConfusion h
    · rename_i fst stX heq
      injection h with h1
      injection h1 with hp hst
      subst hp; subst hst
      split at heq
      · exact Except.noConfusion heq
      · split at heq
        · exact Except.noConfusion heq
        · injection heq with h2
          injection h2 with hv hstX
          subst hstX
          rw [lookup_setFile]
          exact categoriesDocContent_lastUpdated _ _
  | siteUpdate settings nowIso =>
    simp only [MutatorCall.run, MutatorCall.stamp,
      GitHubAutomation.updateSiteSettings, GitHubAutomation.updateFile,
      createOrUpdateFile_ok] at h ⊢
    injection h with h1
    injection h1 with hp hst
    subst hp; subst hst
    rw [lookup_setFile]
    exact siteDocContent_lastUpdated _ _
  | postsReplace posts nowIso =>
    simp only [MutatorCall.run, MutatorCall.stamp, GitHubAutomation.updatePosts,
      GitHubAutomation.updateFile, createOrUpdateFile_ok] at h ⊢
    injection h with h1
    injection h1 with hp hst
    subst hp; subst hst
    rw [lookup_setFile]
    exact postsDocContent_lastUpdated _ _
  | categoriesReplace cats nowIso =>
    simp only [MutatorCall.run, MutatorCall.stamp,
      GitHubAutomation.updateCategories, GitHubAutomation.updateFile,
      createOrUpdateFile_ok] at h ⊢
    injection h with h1
    injection h1 with hp hst
    subst hp; subst hst
    rw [lookup_setFile]
    exact categoriesDocContent_lastUpdated _ _

/-- Claim C9, witness: updating the site settings `{logo: "x"}` at
timestamp `"2025-10-11T10:00:00Z"` against an empty store leaves the site
document with exactly that `lastUpdated`. -/
theorem c9_witness :
    (Store.lookup
        ⟨[("data/site.json",
          ⟨.vobj [("logo", .vstr "x"), ("lastUpdated", .vstr "2025-10-11T10:00:00Z")], 0⟩)]⟩
        "data/site.json").bind (fun fs => vGet fs.content "lastUpdated") =
      some (.vstr (MutatorCall.stamp
        (.siteUpdate [("logo", .vstr "x")] "2025-10-11T10:00:00Z"))) :=
  c9_mutators_refresh_lastUpdated
    (.siteUpdate [("logo", .vstr "x")] "2025-10-11T10:00:00Z")
    ⟨[]⟩ "data/site.json"
    ⟨[("data/site.json",
      ⟨.vobj [("logo", .vstr "x"), ("lastUpdated", .vstr "2025-10-11T10:00:00Z")], 0⟩)]⟩
    rfl
